import Mathlib

/-!
# Verification of the fiscal-document audit engine

Shallow embedding of the audit/validation core of `agente_fiscal_langchain.py`:
the monetary normalizer `_to_decimal`, the identifier validators `validar_cnpj`
and `validar_cpf`, the OCR-path auditor `_auditar_dados_nfs_ocr`, and the
audit orchestration inside `auditar_e_salvar_dados_fiscais` (up to the point
where the audit status and the issue/warning lists are fixed; the LLM
narrative and the persistence step that follow are external collaborators).

Modelling conventions:
* Python `str` values are Lean `String`s; the character-level operations
  (`replace`, `strip`, `in`) are modelled on `List Char` via `String.data`.
* `decimal.Decimal` values are modelled by the `Dec` structure (an integer
  coefficient with a decimal scale, mirroring CPython's representation);
  their rational value is `Dec.val`, and a constructor call that would raise
  `InvalidOperation` is modelled as `none`.  The modelled numeric-string
  grammar is `sign? (digits [. digits?] | . digits) ([eE] sign? digits)?`
  after whitespace stripping; the special values `NaN`/`Infinity` and
  underscore grouping are not modelled.
* Optional / possibly-missing dict fields are `Option String`; a key that is
  absent is `none` (the upstream extractor drops `null`-valued keys before
  the record reaches the auditor, so absent-vs-null need not be separated).
* Python truthiness of an optional string (`if not x`) is `truthyS`.
* `str.isdigit` is modelled on the ASCII digits `'0'..'9'`.
-/

/-- Python `c.isdigit()` restricted to ASCII decimal digits. -/
def isDigitChar (c : Char) : Bool := '0' ≤ c ∧ c ≤ '9'

/-- Python whitespace test used by `str.strip`. -/
def isSpaceChar (c : Char) : Bool :=
  c = ' ' ∨ c = '\t' ∨ c = '\n' ∨ c = '\r' ∨ c = '\x0b' ∨ c = '\x0c'

/-- `str.strip()` on a character list: drop whitespace from both ends. -/
def trimChars (l : List Char) : List Char :=
  ((l.dropWhile isSpaceChar).reverse.dropWhile isSpaceChar).reverse

/-- Python `s.replace(a, b)` for single characters `a`, `b`. -/
def replaceChar (a b : Char) (l : List Char) : List Char :=
  l.map (fun c => if c = a then b else c)

/-- Python `s.replace(a, '')` for a single character `a`: delete every
occurrence. -/
def removeChar (a : Char) (l : List Char) : List Char :=
  l.filter (fun c => c ≠ a)

/-- Numeric value of an ASCII digit character. -/
def digitVal (c : Char) : Nat := c.toNat - 48

/-- Python `''.join(filter(str.isdigit, s))`, with each kept character read
as its digit value (the source converts characters with `int` afterwards). -/
def extractDigits (s : String) : List Nat :=
  (s.data.filter isDigitChar).map digitVal

/-- Truthiness of an optional string field: Python `bool(x)` where `x` is
the result of `dict.get`, i.e. `false` for a missing key and for `""`. -/
def truthyS (v : Option String) : Bool :=
  match v with
  | none => false
  | some s => s ≠ ""

/-- Fold a digit-character list into the `Nat` it denotes. -/
def digitsToNat (l : List Char) : Nat :=
  l.foldl (fun a c => 10 * a + digitVal c) 0

/-- Parse an optional leading sign, returning the sign as `1` or `-1` and the
rest of the characters. -/
def parseSign (l : List Char) : Int × List Char :=
  match l with
  | '+' :: rest => (1, rest)
  | '-' :: rest => (-1, rest)
  | _ => (1, l)

/-- A finite `decimal.Decimal` value: the integer coefficient `num` and a
decimal scale, denoting `num / 10 ^ scale`.  This mirrors CPython's
coefficient-and-exponent representation (restricted to non-positive
exponents, which covers every value the audit engine builds), so value
semantics, the scale kept by `str()`, and exact addition all match. -/
structure Dec where
  num : Int
  scale : Nat
deriving Repr, DecidableEq

/-- The rational value a `Dec` denotes (spec-level semantics only; the
engine itself computes on the coefficients). -/
def Dec.val (d : Dec) : Rat := (d.num : Rat) / (10 : Rat) ^ d.scale

/-- Exact `Decimal` addition: align scales, add coefficients; the result
scale is the larger of the two, as in exact decimal arithmetic. -/
def Dec.add (a b : Dec) : Dec :=
  if a.scale ≤ b.scale then ⟨a.num * (10 : Int) ^ (b.scale - a.scale) + b.num, b.scale⟩
  else ⟨a.num + b.num * (10 : Int) ^ (a.scale - b.scale), a.scale⟩

/-- `Decimal` negation. -/
def Dec.neg (a : Dec) : Dec := ⟨-a.num, a.scale⟩

/-- `Decimal` subtraction. -/
def Dec.sub (a b : Dec) : Dec := Dec.add a (Dec.neg b)

/-- `abs()` on a `Decimal`. -/
def Dec.abs (a : Dec) : Dec := ⟨|a.num|, a.scale⟩

/-- Value comparison `a < b` on `Decimal`s, by cross-multiplication. -/
def decimalLt (a b : Dec) : Bool := a.num * (10 : Int) ^ b.scale < b.num * (10 : Int) ^ a.scale

/-- Value equality `a == b` on `Decimal`s (which ignores scale:
`Decimal("2.5") == Decimal("2.50")`). -/
def decimalEq (a b : Dec) : Bool := a.num * (10 : Int) ^ b.scale == b.num * (10 : Int) ^ a.scale

/-- Shift a parsed coefficient by the exponent of a scientific-notation
literal: a positive exponent first consumes the scale, then multiplies the
coefficient (`Decimal("1.5E1")` is `15`); a negative one deepens the scale. -/
def Dec.scaleByPow10 (d : Dec) (e : Int) : Dec :=
  if 0 ≤ e then
    if e.toNat ≤ d.scale then ⟨d.num, d.scale - e.toNat⟩
    else ⟨d.num * (10 : Int) ^ (e.toNat - d.scale), 0⟩
  else ⟨d.num, d.scale + (-e).toNat⟩

/-- Core of the `decimal.Decimal` string constructor on an already
whitespace-stripped character list: `sign? coefficient exponent?` where the
coefficient is `digits [. digits?]` or `. digits` and the exponent is
`[eE] sign? digits`.  Returns `none` where the Python constructor raises
`InvalidOperation`. -/
def parseDecCore (l : List Char) : Option Dec :=
  let (sgn, l) := parseSign l
  let ip := l.takeWhile isDigitChar
  let l := l.dropWhile isDigitChar
  let (fp, l) :=
    match l with
    | '.' :: rest => (rest.takeWhile isDigitChar, rest.dropWhile isDigitChar)
    | _ => ([], l)
  if ip.isEmpty ∧ fp.isEmpty then none
  else
    let coeff : Dec := ⟨sgn * (digitsToNat (ip ++ fp) : Int), fp.length⟩
    match l with
    | [] => some coeff
    | c :: rest =>
      if c = 'e' ∨ c = 'E' then
        let (esgn, rest) := parseSign rest
        let ed := rest.takeWhile isDigitChar
        let rest := rest.dropWhile isDigitChar
        if ed.isEmpty ∨ ¬ rest.isEmpty then none
        else some (coeff.scaleByPow10 (esgn * (digitsToNat ed : Int)))
      else none

/-- `decimal.Decimal(s)` on a string: the constructor itself strips leading
and trailing whitespace before parsing. -/
def parseDec (s : String) : Option Dec :=
  parseDecCore (trimChars s.data)

/-- The separator-normalization performed by `_to_decimal` on a non-empty
string: strip, then if both `','` and `'.'` occur treat `'.'` as a thousands
separator and delete it, then turn `','` into the decimal point. -/
def normalizeChars (l : List Char) : List Char :=
  let t := trimChars l
  let t := if t.contains ',' ∧ t.contains '.' then removeChar '.' t else t
  replaceChar ',' '.' t

/-- String-level wrapper of `normalizeChars`. -/
def normalizeStr (s : String) : String := ⟨normalizeChars s.data⟩

/-- `_to_decimal(value_str)`: falsy input (missing field or empty string)
yields `Decimal('0.0')`; otherwise the string is stripped, its separators
normalized, and handed to the `Decimal` constructor.  `none` models the
`InvalidOperation` the constructor raises on a malformed string. -/
def toDecimal (v : Option String) : Option Dec :=
  match v with
  | none => some ⟨0, 1⟩
  | some s => if s = "" then some ⟨0, 1⟩ else parseDecCore (trimChars (normalizeChars s.data))

/-- `len(set(l)) == 1`: the list is non-empty and all elements are equal. -/
def allSame (l : List Nat) : Bool :=
  match l with
  | [] => false
  | a :: t => t.all (fun b => b == a)

/-- `sum(int(d) * p for d, p in zip(ds, pesos)) % 11`, then the `dv` rule:
`0` if the remainder is below `2`, else `11 -` remainder. -/
def checkDigit (ds : List Nat) (pesos : List Nat) : Nat :=
  let soma := ((ds.zip pesos).map (fun p => p.1 * p.2)).sum
  let resto := soma % 11
  if resto < 2 then 0 else 11 - resto

/-- First-pass CNPJ weights. -/
def pesosCnpj1 : List Nat := [5, 4, 3, 2, 9, 8, 7, 6, 5, 4, 3, 2]

/-- Second-pass CNPJ weights. -/
def pesosCnpj2 : List Nat := [6, 5, 4, 3, 2, 9, 8, 7, 6, 5, 4, 3, 2]

/-- `validar_cnpj` after digit extraction: reject wrong length or a
degenerate all-equal string, then check both mod-11 check digits. -/
def validarCnpjDigits (ds : List Nat) : Bool :=
  if ds.length ≠ 14 ∨ allSame ds then false
  else
    let dv1 := checkDigit (ds.take 12) pesosCnpj1
    if dv1 ≠ ds.getD 12 0 then false
    else
      let dv2 := checkDigit (ds.take 13) pesosCnpj2
      dv2 == ds.getD 13 0

/-- `validar_cnpj(cnpj)`. -/
def validar_cnpj (s : String) : Bool :=
  validarCnpjDigits (extractDigits s)

/-- One pass of the CPF checksum: `(sum * 10) % 11` with a remainder of
`10` mapped to `0`. -/
def cpfResto (soma : Nat) : Nat :=
  let r := (soma * 10) % 11
  if r = 10 then 0 else r

/-- `validar_cpf` after digit extraction: reject wrong length or a
degenerate all-equal string, then check both check digits, the first from
`sum(cpf[i] * (10 - i) for i in range(9))`, the second from
`sum(cpf[i] * (11 - i) for i in range(10))`. -/
def validarCpfDigits (ds : List Nat) : Bool :=
  if ds.length ≠ 11 ∨ allSame ds then false
  else
    let soma1 := ((List.range 9).map (fun i => ds.getD i 0 * (10 - i))).sum
    if cpfResto soma1 ≠ ds.getD 9 0 then false
    else
      let soma2 := ((List.range 10).map (fun i => ds.getD i 0 * (11 - i))).sum
      cpfResto soma2 == ds.getD 10 0

/-- `validar_cpf(cpf)`. -/
def validar_cpf (s : String) : Bool :=
  validarCpfDigits (extractDigits s)

/-- The hard-coded CFOP allow-list `VALID_CFOP_CODES`. -/
def VALID_CFOP_CODES : List String :=
  ["6102", "1101", "1102", "1201", "1202", "1401", "1403", "1904", "1916",
   "2101", "2102", "2201", "2202", "2401", "2403", "2904", "2916", "3101",
   "3102", "3201", "3202", "5101", "5102", "5116", "5117", "5401", "5403",
   "5405", "5656", "5904", "5929", "6101", "6108", "6401", "6403", "6404",
   "6656", "6904", "6929", "7101", "7102", "7127"]

/-- One entry of the `itens` list of an extracted record.  `pIPI` is the
nested `imposto.IPI.IPITrib.pIPI` field, `none` when any level of that
nesting is missing. -/
structure Item where
  codigo : Option String
  ncm : Option String
  cfop : Option String
  valor_total : Option String
  pIPI : Option String
deriving Repr, DecidableEq

/-- The parsed JSON record handed to `auditar_e_salvar_dados_fiscais`.
`erro = some m` models the key `'erro'` being present with message `m`. -/
structure Registro where
  erro : Option String
  formato : Option String
  numero : Option String
  data_emissao : Option String
  emitente_cnpj : Option String
  destinatario_cnpj_cpf : Option String
  valor_total_nota : Option String
  discriminacao_servicos : Option String
  itens : List Item
deriving Repr, DecidableEq

/-- Result of the external TIPI lookup `consultar_ncm` for a found code:
the repository treats it as a collaborator returning the matched code, a
description and the IPI rate (spec §6: `lookup(code) -> record{matched_code,
description, rate} | not_found`). -/
structure NcmResult where
  ncm_encontrado : String
  descricao : String
  aliquota : String
deriving Repr, DecidableEq

/-- Round the fraction `a / b` (with `0 < b`) to the nearest integer, ties
to even — the rounding `Decimal.__format__` applies. -/
def roundHalfEvenFrac (a : Int) (b : Nat) : Int :=
  let f := Int.fdiv a (b : Int)
  let r := a - f * (b : Int)
  if 2 * r < (b : Int) then f
  else if (b : Int) < 2 * r then f + 1
  else if f % 2 = 0 then f else f + 1

/-- Left-pad the two-decimal fractional part. -/
def pad2 (n : Nat) : String :=
  if n < 10 then "0" ++ toString n else toString n

/-- `format(d, '.2f')` on a non-negative value: round half-even at two
decimal places and print `int.frac`. -/
def format2fAbs (q : Dec) : String :=
  let n := (roundHalfEvenFrac (q.num * 100) ((10 : Nat) ^ q.scale)).toNat
  toString (n / 100) ++ "." ++ pad2 (n % 100)

/-- Python `f"{d:.2f}"` on a `Decimal`. -/
def format2f (q : Dec) : String :=
  if q.num < 0 then "-" ++ format2fAbs ⟨-q.num, q.scale⟩ else format2fAbs q

/-- Zero-pad a digit string on the left to length `k`. -/
def padLeftZeros (s : String) (k : Nat) : String :=
  ⟨List.replicate (k - s.length) '0'⟩ ++ s

/-- `str()` of a `Decimal`: sign, integer part, and the fractional digits
zero-padded to the kept scale (so `str(Decimal("2.50")) = "2.50"`); the
scientific-notation forms Python uses for extreme exponents are not
modelled, and the strings built from this feed only warning texts. -/
def decRepr (q : Dec) : String :=
  let sign := if q.num < 0 then "-" else ""
  let m := q.num.natAbs
  if q.scale = 0 then sign ++ toString m
  else
    sign ++ toString (m / 10 ^ q.scale) ++ "."
      ++ padLeftZeros (toString (m % 10 ^ q.scale)) q.scale

/-- The `item_prefix` f-string `"Item {i} ({codigo or default}) - "`. -/
def itemPrefix (i : Nat) (item : Item) : String :=
  "Item " ++ toString i ++ " (" ++ item.codigo.getD "S/C" ++ ") - "

/-- The reference-info line appended for a found NCM. -/
def ncmInfoLine (item : Item) (r : NcmResult) : String :=
  "Item " ++ item.codigo.getD "S/C" ++ " (NCM " ++ r.ncm_encontrado ++ "): "
    ++ "Descrição: " ++ r.descricao ++ ", Alíquota IPI: " ++ r.aliquota ++ "%"

/-- The issue entry recorded when an item's NCM code is not found by the
TIPI lookup. -/
def ncmNaoEncontradoMsg (i : Nat) (item : Item) : String :=
  itemPrefix i item ++ "NCM '" ++ item.ncm.getD ""
    ++ "' é inválido ou não foi encontrado na Tabela TIPI."

/-- The body of the per-item loop of the structured audit path, returning
the issue entries, warning entries, reference-info entries and the value
this item adds to `calculated_sum` (a line total that fails to parse is
caught and contributes an issue and no value). -/
def processarItem (lookup : String → Option NcmResult) (i : Nat) (item : Item) :
    List String × List String × List String × Option Dec :=
  let pfx := itemPrefix i item
  let (ncmIssues, ipiWarns, info) :=
    if ¬ truthyS item.ncm then
      ([pfx ++ "NCM não informado."], [], [])
    else
      match lookup (item.ncm.getD "") with
      | none =>
        ([ncmNaoEncontradoMsg i item], [], [])
      | some r =>
        let w :=
          match item.pIPI with
          | none => []
          | some s =>
            match toDecimal (some s), toDecimal (some r.aliquota) with
            | some a, some b =>
              if ¬ decimalEq a b then
                [pfx ++ "Alíquota de IPI (" ++ decRepr a ++ "%) diverge da Tabela TIPI ("
                  ++ decRepr b ++ "%)."]
              else []
            | _, _ =>
              [pfx ++ "Não foi possível validar a alíquota de IPI. Valor inválido no documento."]
        ([], w, [ncmInfoLine item r])
  let cfopWarns :=
    if ¬ truthyS item.cfop ∨ ¬ VALID_CFOP_CODES.contains (item.cfop.getD "") then
      [pfx ++ "CFOP '" ++ item.cfop.getD "" ++ "' não consta na lista de códigos válidos."]
    else []
  let (valIssues, valor) :=
    match toDecimal (some (item.valor_total.getD "0")) with
    | some v => ([], some v)
    | none => ([pfx ++ "Contém valor total inválido."], none)
  (ncmIssues ++ valIssues, ipiWarns ++ cfopWarns, info, valor)

/-- The `for i, item in enumerate(items, 1)` loop: every item appends its
issues, warnings and reference info, and its parsed line total accumulates
into the running `calculated_sum` (a failed parse is caught and adds
nothing). -/
def auditarItens (lookup : String → Option NcmResult) (i : Nat) (acc : Dec) :
    List Item → List String × List String × List String × Dec
  | [] => ([], [], [], acc)
  | item :: rest =>
    let (is1, ws1, ni1, v1) := processarItem lookup i item
    let acc := match v1 with
      | some v => Dec.add acc v
      | none => acc
    let (is2, ws2, ni2, soma) := auditarItens lookup (i + 1) acc rest
    (is1 ++ is2, ws1 ++ ws2, ni1 ++ ni2, soma)

/-- The sum-reconciliation error message with both values formatted to two
decimal places. -/
def somaDivergeMsg (soma total : Dec) : String :=
  "A soma dos itens (" ++ format2f soma ++ ") difere do valor total da nota ("
    ++ format2f total ++ ")."

/-- The one-cent tolerance literal `Decimal('0.01')`. -/
def umCentavo : Dec := ⟨1, 2⟩

/-- Lines 158-160 of the source: parse the declared total (NOT inside any
`try`, so a parse failure propagates, modelled as `none`) and flag an
absolute difference above one cent as an error. -/
def reconciliar (soma : Dec) (valor_total_nota : Option String)
    (issues : List String) : Option (List String) :=
  match toDecimal (some (valor_total_nota.getD "0")) with
  | none => none
  | some total =>
    some (if decimalLt umCentavo (Dec.abs (Dec.sub soma total))
          then issues ++ [somaDivergeMsg soma total] else issues)

/-- The structured (non-OCR) audit path of `auditar_e_salvar_dados_fiscais`:
document-number and issuer-CNPJ checks, the per-item loop starting from
`calculated_sum = Decimal('0.00')`, then sum reconciliation.  Returns
`none` when the uncaught declared-total parse raises. -/
def auditarEstruturado (lookup : String → Option NcmResult) (d : Registro) :
    Option (List String × List String × List String) :=
  let issues0 :=
    (if ¬ truthyS d.numero then ["Número do documento não informado."] else [])
    ++ (if ¬ truthyS d.emitente_cnpj ∨ ¬ validar_cnpj (d.emitente_cnpj.getD "") then
          ["CNPJ do emitente '" ++ d.emitente_cnpj.getD "" ++ "' é inválido ou não informado."]
        else [])
  let warns0 := if d.itens.isEmpty then ["O documento não contém itens."] else []
  let (itemIssues, itemWarns, info, soma) := auditarItens lookup 1 ⟨0, 2⟩ d.itens
  (reconciliar soma d.valor_total_nota (issues0 ++ itemIssues)).map
    (fun issues => (issues, warns0 ++ itemWarns, info))

/-- `_auditar_dados_nfs_ocr(dados)`: the looser field-presence audit used
for `ocr` / `ocr_ia` records.  Returns `(errors, warnings)`. -/
def auditarOcr (d : Registro) : List String × List String :=
  let (e1, w1) :=
    if ¬ truthyS d.emitente_cnpj then (["CNPJ do emitente não informado."], ([] : List String))
    else if ¬ validar_cnpj (d.emitente_cnpj.getD "") then
      (["CNPJ do emitente '" ++ d.emitente_cnpj.getD "" ++ "' é inválido."], [])
    else ([], [])
  let (e2, w2) :=
    if ¬ truthyS d.destinatario_cnpj_cpf then
      (([] : List String), ["CPF/CNPJ do destinatário (tomador) não informado."])
    else
      let v := d.destinatario_cnpj_cpf.getD ""
      if 11 < (extractDigits v).length ∧ ¬ validar_cnpj v then
        (["CNPJ do destinatário '" ++ v ++ "' é inválido."], [])
      else if (extractDigits v).length ≤ 11 ∧ ¬ validar_cpf v then
        (["CPF do destinatário '" ++ v ++ "' é inválido."], [])
      else ([], [])
  let e3 := if ¬ truthyS d.numero then ["Número da nota não informado."] else []
  let w3 := if ¬ truthyS d.data_emissao then ["Data de emissão não informada."] else []
  let e4 := if ¬ truthyS d.valor_total_nota then ["Valor total da nota não informado."] else []
  let w4 :=
    if ¬ truthyS d.discriminacao_servicos then
      ["Discriminação dos serviços não informada ou vazia."]
    else []
  (e1 ++ e2 ++ e3 ++ e4, w1 ++ w2 ++ w3 ++ w4)

/-- `status = 'error' if issues else ('warning' if warnings else 'success')`. -/
def statusOf (issues warnings : List String) : String :=
  if ¬ issues.isEmpty then "error"
  else if ¬ warnings.isEmpty then "warning"
  else "success"

/-- Outcome of one invocation of the audit core on an already-parsed JSON
record.  `extracaoFalhou` is the early `{'status': 'ERRO', ...}` return for
a record carrying an `'erro'` key; `excecao` models an exception escaping
the function (there is no handler between the `'erro'` check and the
construction of `audit_result`); `resultado` carries the audit status and
the `erros`/`avisos`/NCM-info lists of `audit_result`. -/
inductive Saida where
  | extracaoFalhou (msg : String)
  | excecao
  | resultado (status : String) (erros avisos ncmInfo : List String)
deriving Repr, DecidableEq

/-- The outcome of the structured path lifted into `Saida`. -/
def saidaEstruturada (lookup : String → Option NcmResult) (d : Registro) : Saida :=
  match auditarEstruturado lookup d with
  | none => .excecao
  | some (issues, warns, info) => .resultado (statusOf issues warns) issues warns info

/-- The audit core of `auditar_e_salvar_dados_fiscais` on a successfully
parsed record: short-circuit on an upstream-extraction error, dispatch on
`formato`, and derive the status from the accumulated lists.  The LLM
conclusion and the persistence step that follow in the source do not alter
the status or the lists and are outside the model. -/
def auditar (lookup : String → Option NcmResult) (d : Registro) : Saida :=
  match d.erro with
  | some m => .extracaoFalhou ("A extração de dados falhou. Causa raiz: " ++ m)
  | none =>
    if d.formato = some "ocr" ∨ d.formato = some "ocr_ia" then
      let (errs, warns) := auditarOcr d
      .resultado (statusOf errs warns) errs warns []
    else
      saidaEstruturada lookup d

/-! ## Helper lemmas -/

lemma mem_dropWhile {α : Type} {p : α → Bool} {a : α} {l : List α}
    (h : a ∈ l.dropWhile p) : a ∈ l :=
  List.Sublist.mem h (List.dropWhile_sublist p)

lemma mem_trimChars {a : Char} {l : List Char} (h : a ∈ trimChars l) : a ∈ l := by
  unfold trimChars at h
  rw [List.mem_reverse] at h
  exact mem_dropWhile (List.mem_reverse.mp (mem_dropWhile h))

lemma dropWhile_dropWhile {α : Type} (p : α → Bool) (l : List α) :
    (l.dropWhile p).dropWhile p = l.dropWhile p := by
  cases h : l.dropWhile p with
  | nil => simp
  | cons a t =>
    have hp : p a = false := by
      have := List.head_dropWhile_not p l (by simp [h])
      simpa [h] using this
    simp [List.dropWhile_cons, hp]

/-- Right trim: the reverse-side `dropWhile`. -/
def rtrim (p : Char → Bool) (l : List Char) : List Char :=
  (l.reverse.dropWhile p).reverse

lemma trimChars_eq_rtrim (l : List Char) :
    trimChars l = rtrim isSpaceChar (l.dropWhile isSpaceChar) := rfl

lemma rtrim_rtrim (p : Char → Bool) (l : List Char) :
    rtrim p (rtrim p l) = rtrim p l := by
  unfold rtrim
  rw [List.reverse_reverse, dropWhile_dropWhile]

lemma rtrim_prefix (p : Char → Bool) (l : List Char) : rtrim p l <+: l := by
  have h : l.reverse.dropWhile p <:+ l.reverse := List.dropWhile_suffix p
  have h2 := List.reverse_prefix.mpr h
  simpa [rtrim] using h2

lemma dropWhile_eq_self_of_head {α : Type} {p : α → Bool} {l : List α}
    (h : ∀ a t, l = a :: t → p a = false) : l.dropWhile p = l := by
  cases l with
  | nil => rfl
  | cons a t => simp [List.dropWhile_cons, h a t rfl]

lemma dropWhile_rtrim (p : Char → Bool) (l : List Char) :
    (rtrim p (l.dropWhile p)).dropWhile p = rtrim p (l.dropWhile p) := by
  apply dropWhile_eq_self_of_head
  intro a t h
  obtain ⟨u, hu⟩ := rtrim_prefix p (l.dropWhile p)
  rw [h] at hu
  have hhead : ∀ b s, l.dropWhile p = b :: s → p b = false := by
    intro b s hb
    have := List.head_dropWhile_not p l (by simp [hb])
    simpa [hb] using this
  exact hhead a (t ++ u) (by simpa using hu.symm)

lemma trimChars_idem (l : List Char) : trimChars (trimChars l) = trimChars l := by
  rw [trimChars_eq_rtrim, trimChars_eq_rtrim, dropWhile_rtrim, rtrim_rtrim]

lemma comma_not_mem_replaceChar (l : List Char) : ',' ∉ replaceChar ',' '.' l := by
  intro hm
  simp only [replaceChar, List.mem_map] at hm
  obtain ⟨c, _, hc⟩ := hm
  by_cases h : c = ',' <;> simp [h] at hc

lemma replaceChar_eq_self {a b : Char} {l : List Char} (h : a ∉ l) :
    replaceChar a b l = l := by
  unfold replaceChar
  have : l.map (fun c => if c = a then b else c) = l.map id :=
    List.map_congr_left (fun c hc => by
      have : c ≠ a := fun hca => h (hca ▸ hc)
      simp [this])
  rw [this, List.map_id]

lemma comma_not_mem_normalizeChars (l : List Char) : ',' ∉ normalizeChars l := by
  unfold normalizeChars
  exact comma_not_mem_replaceChar _

lemma contains_eq_true_iff {a : Char} {l : List Char} : l.contains a = true ↔ a ∈ l := by
  simp [List.contains]

lemma normalizeChars_of_no_comma {l : List Char} (h : ',' ∉ trimChars l) :
    normalizeChars l = trimChars l := by
  unfold normalizeChars
  have hc : (trimChars l).contains ',' = false := by
    rw [Bool.eq_false_iff]
    intro hh
    exact h (contains_eq_true_iff.mp hh)
  simp only [hc, Bool.false_eq_true, false_and, if_false]
  exact replaceChar_eq_self h

lemma normalizeChars_normalizeChars (l : List Char) :
    trimChars (normalizeChars (normalizeChars l)) = trimChars (normalizeChars l) := by
  have hnct : ',' ∉ trimChars (normalizeChars l) :=
    fun h => comma_not_mem_normalizeChars l (mem_trimChars h)
  rw [normalizeChars_of_no_comma hnct, trimChars_idem]

lemma statusOf_spec (e w : List String) :
    (statusOf e w = "error" ↔ e ≠ [])
    ∧ (statusOf e w = "warning" ↔ e = [] ∧ w ≠ [])
    ∧ (statusOf e w = "success" ↔ e = [] ∧ w = []) := by
  unfold statusOf
  rcases e with _ | ⟨a, e⟩ <;> rcases w with _ | ⟨b, w⟩ <;> simp

lemma auditar_erro_eq (lookup : String → Option NcmResult) (d : Registro) (m : String)
    (h : d.erro = some m) :
    auditar lookup d = .extracaoFalhou ("A extração de dados falhou. Causa raiz: " ++ m) := by
  unfold auditar
  rw [h]

lemma auditar_ocr_eq (lookup : String → Option NcmResult) (d : Registro)
    (h0 : d.erro = none) (h : d.formato = some "ocr" ∨ d.formato = some "ocr_ia") :
    auditar lookup d
      = .resultado (statusOf (auditarOcr d).1 (auditarOcr d).2)
          (auditarOcr d).1 (auditarOcr d).2 [] := by
  unfold auditar
  rw [h0, if_pos h]

lemma auditar_estruturado_eq (lookup : String → Option NcmResult) (d : Registro)
    (h0 : d.erro = none) (h1 : d.formato ≠ some "ocr") (h2 : d.formato ≠ some "ocr_ia") :
    auditar lookup d = saidaEstruturada lookup d := by
  unfold auditar
  rw [h0, if_neg (by simp [h1, h2])]

lemma allSame_replicate {n : Nat} (d : Nat) (h : n ≠ 0) :
    allSame (List.replicate n d) = true := by
  cases n with
  | zero => exact absurd rfl h
  | succ n =>
    simp [List.replicate_succ, allSame, List.all_eq_true, List.mem_replicate]

lemma pow_ten_pos (n : Nat) : (0 : Rat) < (10 : Rat) ^ n := by positivity

lemma decimalLt_iff (a b : Dec) : decimalLt a b = true ↔ a.val < b.val := by
  unfold decimalLt Dec.val
  rw [decide_eq_true_iff]
  rw [div_lt_div_iff₀ (pow_ten_pos a.scale) (pow_ten_pos b.scale)]
  constructor
  · intro h
    have h2 : ((a.num * 10 ^ b.scale : Int) : Rat) < ((b.num * 10 ^ a.scale : Int) : Rat) := by
      exact_mod_cast h
    push_cast at h2
    exact h2
  · intro h
    have h2 : ((a.num * 10 ^ b.scale : Int) : Rat) < ((b.num * 10 ^ a.scale : Int) : Rat) := by
      push_cast
      exact h
    exact_mod_cast h2

lemma Dec.val_neg (a : Dec) : (Dec.neg a).val = -a.val := by
  unfold Dec.neg Dec.val
  push_cast
  ring

lemma Dec.val_add (a b : Dec) : (Dec.add a b).val = a.val + b.val := by
  unfold Dec.add Dec.val
  split
  · next h =>
    have h10 : ((10 : Rat) ^ (b.scale - a.scale)) * (10 : Rat) ^ a.scale
        = (10 : Rat) ^ b.scale := by
      rw [← pow_add, Nat.sub_add_cancel h]
    push_cast
    rw [div_add_div _ _ (ne_of_gt (pow_ten_pos a.scale)) (ne_of_gt (pow_ten_pos b.scale))]
    rw [div_eq_div_iff (ne_of_gt (pow_ten_pos b.scale))
        (ne_of_gt (mul_pos (pow_ten_pos a.scale) (pow_ten_pos b.scale)))]
    rw [← h10]
    ring
  · next h =>
    have h' : b.scale ≤ a.scale := Nat.le_of_lt (Nat.lt_of_not_le h)
    have h10 : ((10 : Rat) ^ (a.scale - b.scale)) * (10 : Rat) ^ b.scale
        = (10 : Rat) ^ a.scale := by
      rw [← pow_add, Nat.sub_add_cancel h']
    push_cast
    rw [div_add_div _ _ (ne_of_gt (pow_ten_pos a.scale)) (ne_of_gt (pow_ten_pos b.scale))]
    rw [div_eq_div_iff (ne_of_gt (pow_ten_pos a.scale))
        (ne_of_gt (mul_pos (pow_ten_pos a.scale) (pow_ten_pos b.scale)))]
    rw [← h10]
    ring

lemma Dec.val_sub (a b : Dec) : (Dec.sub a b).val = a.val - b.val := by
  unfold Dec.sub
  rw [Dec.val_add, Dec.val_neg]
  ring

lemma Dec.val_abs (a : Dec) : (Dec.abs a).val = |a.val| := by
  unfold Dec.abs Dec.val
  rw [abs_div, abs_of_pos (pow_ten_pos a.scale)]
  push_cast
  rfl

lemma umCentavo_val : umCentavo.val = 1/100 := by
  norm_num [umCentavo, Dec.val]

lemma decimalEq_iff (a b : Dec) : decimalEq a b = true ↔ a.val = b.val := by
  unfold decimalEq Dec.val
  rw [beq_iff_eq]
  rw [div_eq_div_iff (ne_of_gt (pow_ten_pos a.scale)) (ne_of_gt (pow_ten_pos b.scale))]
  constructor
  · intro h
    have h2 : ((a.num * 10 ^ b.scale : Int) : Rat) = ((b.num * 10 ^ a.scale : Int) : Rat) := by
      exact_mod_cast h
    push_cast at h2
    exact h2
  · intro h
    have h2 : ((a.num * 10 ^ b.scale : Int) : Rat) = ((b.num * 10 ^ a.scale : Int) : Rat) := by
      push_cast
      exact h
    exact_mod_cast h2

/-! ## Concrete lookups and records used by witnesses -/

/-- A reference-table collaborator that finds no code. -/
def lkNone : String → Option NcmResult := fun _ => none

/-- A reference-table collaborator knowing the single NCM `01012100`. -/
def lkTipi : String → Option NcmResult := fun c =>
  if c = "01012100" then some ⟨"01012100", "Cavalos reprodutores de raça pura", "0"⟩ else none

/-- A record carrying an upstream extraction failure. -/
def recFalha : Registro :=
  ⟨some "Falha ao processar XML", some "ocr", some "77", none, none, none, none, none, []⟩

/-- A second extraction-failure record with the same message but every other
field different. -/
def recFalha2 : Registro :=
  ⟨some "Falha ao processar XML", none, none, some "2024-01-01",
   some "11222333000181", some "52998224725", some "10.00", some "x",
   [⟨some "1", some "01012100", some "5102", some "10.00", none⟩]⟩

/-! ## C7 -/

/-- C7: a record that carries an upstream extraction-failure signal makes the
audit engine return immediately with an error-status result wrapping the
failure reason; no audit rule runs, so the outcome is independent of the
reference lookup and of every other field of the record. -/
theorem extraction_failure_short_circuit :
    ∀ (lookup lookup' : String → Option NcmResult) (d d' : Registro) (m : String),
      d.erro = some m → d'.erro = some m →
      auditar lookup d = .extracaoFalhou ("A extração de dados falhou. Causa raiz: " ++ m)
      ∧ auditar lookup d = auditar lookup' d' := by
  intro lookup lookup' d d' m h h'
  rw [auditar_erro_eq lookup d m h, auditar_erro_eq lookup' d' m h']
  exact ⟨rfl, rfl⟩

theorem extraction_failure_short_circuit_witness :
    auditar lkNone recFalha
      = .extracaoFalhou ("A extração de dados falhou. Causa raiz: Falha ao processar XML")
    ∧ auditar lkNone recFalha = auditar lkTipi recFalha2 :=
  extraction_failure_short_circuit lkNone lkTipi recFalha recFalha2
    "Falha ao processar XML" rfl rfl

/-! ## C9 -/

/-- C9: an input whose stripped digits are all identical (14 for the
organization-ID validator, 11 for the individual-ID validator) is rejected
regardless of checksum arithmetic. -/
theorem all_same_digits_invalid :
    ∀ (s t : String) (d e : Nat),
      extractDigits s = List.replicate 14 d →
      extractDigits t = List.replicate 11 e →
      validar_cnpj s = false ∧ validar_cpf t = false := by
  intro s t d e h1 h2
  constructor
  · rw [validar_cnpj, h1]
    unfold validarCnpjDigits
    rw [if_pos (Or.inr (allSame_replicate d (by decide)))]
  · rw [validar_cpf, h2]
    unfold validarCpfDigits
    rw [if_pos (Or.inr (allSame_replicate e (by decide)))]

theorem all_same_digits_invalid_witness :
    validar_cnpj "00000000000000" = false ∧ validar_cpf "11111111111" = false :=
  all_same_digits_invalid "00000000000000" "11111111111" 0 1 (by decide) (by decide)

/-! ## C10 -/

/-- C10: any record without an extraction-error key whose `formato` is
neither `"ocr"` nor `"ocr_ia"` (including a missing or unrecognized value)
is audited by the structured path, not the OCR path. -/
theorem non_ocr_formats_use_structured_path :
    ∀ (lookup : String → Option NcmResult) (d : Registro),
      d.erro = none → d.formato ≠ some "ocr" → d.formato ≠ some "ocr_ia" →
      auditar lookup d = saidaEstruturada lookup d := by
  intro lookup d h0 h1 h2
  exact auditar_estruturado_eq lookup d h0 h1 h2

/-- A record with an unrecognized `formato` value. -/
def recFormatoXml : Registro :=
  ⟨none, some "xml", some "1", none, some "11222333000181", none, some "0", none, []⟩

/-- A record with no `formato` key at all. -/
def recSemFormato : Registro :=
  ⟨none, none, some "1", none, some "11222333000181", none, some "0", none, []⟩

theorem non_ocr_formats_use_structured_path_witness :
    auditar lkNone recFormatoXml = saidaEstruturada lkNone recFormatoXml
    ∧ auditar lkNone recSemFormato = saidaEstruturada lkNone recSemFormato :=
  ⟨non_ocr_formats_use_structured_path lkNone recFormatoXml rfl (by decide) (by decide),
   non_ocr_formats_use_structured_path lkNone recSemFormato rfl (by decide) (by decide)⟩

/-! ## C2 -/

/-- C2: whenever the audit engine processes a record to completion (produces
an audit result rather than short-circuiting or raising), the status is
`error` iff the error list is non-empty, `warning` iff the error list is
empty and the warning list is not, and `success` iff both are empty. -/
theorem audit_status_iff_lists :
    ∀ (lookup : String → Option NcmResult) (d : Registro)
      (st : String) (e w i : List String),
      auditar lookup d = .resultado st e w i →
      ((st = "error" ↔ e ≠ [])
        ∧ (st = "warning" ↔ e = [] ∧ w ≠ [])
        ∧ (st = "success" ↔ e = [] ∧ w = [])) := by
  intro lookup d st e w i h
  have hst : st = statusOf e w := by
    cases herr : d.erro with
    | some m =>
      rw [auditar_erro_eq lookup d m herr] at h
      exact absurd h (by simp)
    | none =>
      by_cases hf : d.formato = some "ocr" ∨ d.formato = some "ocr_ia"
      · rw [auditar_ocr_eq lookup d herr hf] at h
        rw [Saida.resultado.injEq] at h
        obtain ⟨h1, h2, h3, _⟩ := h
        rw [← h1, ← h2, ← h3]
      · rw [auditar_estruturado_eq lookup d herr
            (fun hh => hf (Or.inl hh)) (fun hh => hf (Or.inr hh))] at h
        unfold saidaEstruturada at h
        cases ha : auditarEstruturado lookup d with
        | none => rw [ha] at h; exact absurd h (by simp)
        | some trip =>
          obtain ⟨iss, ws, inf⟩ := trip
          rw [ha] at h
          rw [Saida.resultado.injEq] at h
          obtain ⟨h1, h2, h3, _⟩ := h
          rw [← h1, ← h2, ← h3]
  rw [hst]
  exact statusOf_spec e w

/-- An OCR record whose only issue is a missing document number. -/
def recOcrSemNumero : Registro :=
  ⟨none, some "ocr", none, some "2024-05-01", some "11222333000181",
   some "52998224725", some "150.00", some "Serviços de consultoria", []⟩

theorem audit_status_iff_lists_witness :
    ("error" = "error" ↔ (["Número da nota não informado."] : List String) ≠ []) ∧
    ("error" = "warning" ↔ (["Número da nota não informado."] : List String) = []
      ∧ ([] : List String) ≠ []) ∧
    ("error" = "success" ↔ (["Número da nota não informado."] : List String) = []
      ∧ ([] : List String) = []) :=
  audit_status_iff_lists lkNone recOcrSemNumero "error"
    ["Número da nota não informado."] [] [] (by decide)


/-! ## C8 -/

/-- C8: an OCR-format record in which the issue date is the only missing or
invalid checked field (issuer ID present and checksum-valid, recipient ID
present and valid for its length class, document number, declared total and
service description present) is audited to status `warning` with exactly one
warning entry and no error entries. -/
theorem ocr_missing_issue_date_warning :
    ∀ (lookup : String → Option NcmResult) (d : Registro),
      d.erro = none →
      (d.formato = some "ocr" ∨ d.formato = some "ocr_ia") →
      truthyS d.emitente_cnpj = true →
      validar_cnpj (d.emitente_cnpj.getD "") = true →
      truthyS d.destinatario_cnpj_cpf = true →
      (11 < (extractDigits (d.destinatario_cnpj_cpf.getD "")).length →
        validar_cnpj (d.destinatario_cnpj_cpf.getD "") = true) →
      ((extractDigits (d.destinatario_cnpj_cpf.getD "")).length ≤ 11 →
        validar_cpf (d.destinatario_cnpj_cpf.getD "") = true) →
      truthyS d.numero = true →
      truthyS d.data_emissao = false →
      truthyS d.valor_total_nota = true →
      truthyS d.discriminacao_servicos = true →
      auditar lookup d = .resultado "warning" [] ["Data de emissão não informada."] [] := by
  intro lookup d h0 hf hET hEV hDT hDcn hDcp hNum hData hVal hDisc
  have hocr : auditarOcr d = ([], ["Data de emissão não informada."]) := by
    unfold auditarOcr
    by_cases hlen : 11 < (extractDigits (d.destinatario_cnpj_cpf.getD "")).length
    · have hlen' : ¬ ((extractDigits (d.destinatario_cnpj_cpf.getD "")).length ≤ 11) :=
        Nat.not_le_of_lt hlen
      simp [hET, hEV, hDT, hlen, hlen', hDcn hlen, hNum, hData, hVal, hDisc]
    · simp [hET, hEV, hDT, hlen, hDcp (Nat.le_of_not_lt hlen), hNum, hData, hVal, hDisc]
  rw [auditar_ocr_eq lookup d h0 hf, hocr]
  rfl

/-- An `ocr_ia` record with everything valid except the missing issue date. -/
def recOcrSemData : Registro :=
  ⟨none, some "ocr_ia", some "321", none, some "11222333000181",
   some "52998224725", some "150.00", some "Serviços de consultoria", []⟩

theorem ocr_missing_issue_date_warning_witness :
    auditar lkNone recOcrSemData
      = .resultado "warning" [] ["Data de emissão não informada."] [] :=
  ocr_missing_issue_date_warning lkNone recOcrSemData rfl (by decide) (by decide)
    (by decide) (by decide) (fun h => absurd h (by decide)) (fun _ => by decide)
    (by decide) (by decide) (by decide) (by decide)

/-! ## C3 -/

/-- The item used by the reconciliation example records: line total 50.00,
found NCM, allow-listed CFOP. -/
def itemCinquenta : Item := ⟨some "1", some "01012100", some "5102", some "50.00", none⟩

/-- A structured record with two 50.00 items and a declared total `v`. -/
def recCem (v : Option String) : Registro :=
  ⟨none, none, some "123", none, some "11222333000181", none, v, none,
   [itemCinquenta, itemCinquenta]⟩

/-- The reference-info lines produced for `recCem` under `lkTipi`. -/
def infoCem : List String :=
  ["Item 1 (NCM 01012100): Descrição: Cavalos reprodutores de raça pura, Alíquota IPI: 0%",
   "Item 1 (NCM 01012100): Descrição: Cavalos reprodutores de raça pura, Alíquota IPI: 0%"]

/-- C3: the accumulated exact-decimal item sum is compared with the parsed
declared total under an absolute tolerance of 0.01 (as rational values):
the reconciliation step appends the two-decimal-formatted error message
exactly when the absolute difference exceeds 0.01.  Concretely, items
summing to 100.00 raise no error against a declared total of 100.01, while
100.02 yields the error reporting both values with two decimal places. -/
theorem sum_reconciliation_tolerance :
    (∀ (soma total : Dec) (v : Option String) (issues : List String),
      toDecimal (some (v.getD "0")) = some total →
      reconciliar soma v issues =
        some (if 1/100 < |soma.val - total.val| then issues ++ [somaDivergeMsg soma total]
              else issues))
    ∧ auditar lkTipi (recCem (some "100.01")) = .resultado "success" [] [] infoCem
    ∧ auditar lkTipi (recCem (some "100.02"))
        = .resultado "error"
            ["A soma dos itens (100.00) difere do valor total da nota (100.02)."]
            [] infoCem := by
  refine ⟨?_, by decide, by decide⟩
  intro soma total v issues h
  unfold reconciliar
  rw [h]
  have hiff : (decimalLt umCentavo (Dec.abs (Dec.sub soma total)) = true)
      ↔ (1/100 < |soma.val - total.val|) := by
    rw [decimalLt_iff, Dec.val_abs, Dec.val_sub, umCentavo_val]
  exact congrArg some (if_congr hiff rfl rfl)

theorem sum_reconciliation_tolerance_witness :
    reconciliar ⟨10000, 2⟩ (some "100.02") []
      = some ([] ++ [somaDivergeMsg ⟨10000, 2⟩ ⟨10002, 2⟩]) := by
  rw [sum_reconciliation_tolerance.1 ⟨10000, 2⟩ ⟨10002, 2⟩ (some "100.02") [] (by decide)]
  rw [if_pos (by rw [lt_abs]; norm_num [Dec.val])]

/-! ## C1 -/

lemma reconciliar_eq_none_iff (soma : Dec) (v : Option String) (issues : List String) :
    reconciliar soma v issues = none ↔ toDecimal (some (v.getD "0")) = none := by
  unfold reconciliar
  cases h : toDecimal (some (v.getD "0")) <;> simp [h]

lemma auditarEstruturado_eq_none_iff (lookup : String → Option NcmResult) (d : Registro) :
    auditarEstruturado lookup d = none
      ↔ toDecimal (some (d.valor_total_nota.getD "0")) = none := by
  unfold auditarEstruturado
  rw [Option.map_eq_none']
  exact reconciliar_eq_none_iff _ _ _

/-- A structured record with one well-formed item but an unparseable
declared document total. -/
def recTotalInvalido : Registro :=
  ⟨none, none, some "9", none, some "11222333000181", none, some "abc", none,
   [⟨some "1", some "01012100", some "5102", some "50.00", none⟩]⟩

/-- C1 (counterexample to the claim as stated): on a syntactically valid
record whose declared total does not parse, the audit engine does not
return a structured result — the uncaught `InvalidOperation` from line 158
aborts the audit after the items were already processed. -/
theorem audit_unparseable_declared_total_raises :
    auditar lkTipi recTotalInvalido = .excecao := by decide

/-- C1 (amended): the audit engine yields a structured outcome for every
syntactically valid record except in exactly one situation: a non-OCR
record whose declared document total fails to parse, where the uncaught
parse error aborts the audit.  Malformed numeric fields at item
granularity (line totals, tax rates) never abort. -/
theorem audit_raises_only_on_bad_declared_total :
    ∀ (lookup : String → Option NcmResult) (d : Registro),
      auditar lookup d = .excecao ↔
        (d.erro = none ∧ d.formato ≠ some "ocr" ∧ d.formato ≠ some "ocr_ia"
          ∧ toDecimal (some (d.valor_total_nota.getD "0")) = none) := by
  intro lookup d
  constructor
  · intro h
    cases herr : d.erro with
    | some m =>
      rw [auditar_erro_eq lookup d m herr] at h
      exact absurd h (by simp)
    | none =>
      by_cases hf : d.formato = some "ocr" ∨ d.formato = some "ocr_ia"
      · rw [auditar_ocr_eq lookup d herr hf] at h
        exact absurd h (by simp)
      · have h1 : d.formato ≠ some "ocr" := fun hh => hf (Or.inl hh)
        have h2 : d.formato ≠ some "ocr_ia" := fun hh => hf (Or.inr hh)
        rw [auditar_estruturado_eq lookup d herr h1 h2] at h
        unfold saidaEstruturada at h
        refine ⟨herr ▸ rfl, h1, h2, ?_⟩
        rw [← auditarEstruturado_eq_none_iff lookup d]
        cases ha : auditarEstruturado lookup d with
        | none => rfl
        | some trip =>
          obtain ⟨iss, ws, inf⟩ := trip
          rw [ha] at h
          exact absurd h (by simp)
  · rintro ⟨herr, h1, h2, htd⟩
    rw [auditar_estruturado_eq lookup d herr h1 h2]
    unfold saidaEstruturada
    rw [(auditarEstruturado_eq_none_iff lookup d).mpr htd]

/-! ## C4 -/

lemma getD_set_self {l : List Nat} {i : Nat} (h : i < l.length) (e d : Nat) :
    (l.set i e).getD i d = e := by
  rw [List.getD_eq_getElem?_getD, List.getElem?_set_self h]
  rfl

lemma getD_set_ne {l : List Nat} {i j : Nat} (h : i ≠ j) (e d : Nat) :
    (l.set i e).getD j d = l.getD j d := by
  rw [List.getD_eq_getElem?_getD, List.getElem?_set_ne h, ← List.getD_eq_getElem?_getD]

lemma take_set_of_le {l : List Nat} {i n : Nat} (h : n ≤ i) (e : Nat) :
    (l.set i e).take n = l.take n := by
  rw [List.set_take, List.set_eq_of_length_le]
  rw [List.length_take]
  omega

/-- `validarCnpjDigits` with its `let`s unfolded. -/
lemma validarCnpjDigits_eq (ds : List Nat) :
    validarCnpjDigits ds =
      if ds.length ≠ 14 ∨ allSame ds then false
      else if checkDigit (ds.take 12) pesosCnpj1 ≠ ds.getD 12 0 then false
      else checkDigit (ds.take 13) pesosCnpj2 == ds.getD 13 0 := rfl

/-- C4: a string stripping to 14 digits, not all identical, whose 13th and
14th digits are the two mod-11 check digits of its prefix under the CNPJ
weight vectors, validates; and any string stripping to the same digits with
digit 13 or digit 14 replaced by a different digit fails validation. -/
theorem cnpj_checksum_correct :
    ∀ (s : String) (ds : List Nat),
      extractDigits s = ds →
      ds.length = 14 →
      allSame ds = false →
      ds.getD 12 0 = checkDigit (ds.take 12) pesosCnpj1 →
      ds.getD 13 0 = checkDigit (ds.take 13) pesosCnpj2 →
      (validar_cnpj s = true
        ∧ (∀ (t : String) (e : Nat), e ≠ ds.getD 12 0 →
            extractDigits t = ds.set 12 e → validar_cnpj t = false)
        ∧ (∀ (t : String) (e : Nat), e ≠ ds.getD 13 0 →
            extractDigits t = ds.set 13 e → validar_cnpj t = false)) := by
  intro s ds hs hlen hsame h12 h13
  refine ⟨?_, ?_, ?_⟩
  · rw [validar_cnpj, hs, validarCnpjDigits_eq]
    rw [if_neg (by simp [hlen, hsame])]
    rw [if_neg (by rw [← h12]; exact fun hh => hh rfl)]
    simp [← h13]
  · intro t e he ht
    rw [validar_cnpj, ht, validarCnpjDigits_eq]
    by_cases hsame' : allSame (ds.set 12 e)
    · rw [if_pos (Or.inr hsame')]
    · rw [if_neg (by simp [List.length_set, hlen, hsame'])]
      rw [if_pos ?_]
      rw [take_set_of_le (Nat.le_refl 12), getD_set_self (by omega) e 0]
      rw [← h12]
      exact fun hh => he hh.symm
  · intro t e he ht
    rw [validar_cnpj, ht, validarCnpjDigits_eq]
    by_cases hsame' : allSame (ds.set 13 e)
    · rw [if_pos (Or.inr hsame')]
    · rw [if_neg (by simp [List.length_set, hlen, hsame'])]
      rw [if_neg ?_, take_set_of_le (by omega : 13 ≤ 13), getD_set_self (by omega) e 0]
      · rw [← h13]
        exact beq_eq_false_iff_ne.mpr (fun hh => he hh.symm)
      · rw [take_set_of_le (by omega : 12 ≤ 13), getD_set_ne (by omega) e 0]
        rw [← h12]
        exact fun hh => hh rfl

theorem cnpj_checksum_correct_witness :
    validar_cnpj "11.222.333/0001-81" = true
    ∧ validar_cnpj "11.222.333/0001-91" = false
    ∧ validar_cnpj "11.222.333/0001-85" = false := by
  have h := cnpj_checksum_correct "11.222.333/0001-81" [1,1,2,2,2,3,3,3,0,0,0,1,8,1]
    (by decide) (by decide) (by decide) (by decide) (by decide)
  exact ⟨h.1,
    h.2.1 "11.222.333/0001-91" 9 (by decide) (by decide),
    h.2.2 "11.222.333/0001-85" 5 (by decide) (by decide)⟩

/-! ## C5 -/

/-- C5: the monetary-normalization policy of `_to_decimal`: with both `','`
and `'.'` present every `'.'` is deleted and `','` becomes the decimal
point; with only `','` present it becomes the decimal point; absent or
empty input yields exactly zero; normalization is idempotent at the value
level (re-normalizing an already-normalized string parses to the same
decimal); and `"1.234,56"` and `"1234.56"` both normalize to the exact
decimal 1234.56. -/
theorem to_decimal_normalization_policy :
    (∀ s : String, (trimChars s.data).contains ',' = true →
      (trimChars s.data).contains '.' = true →
      normalizeStr s = ⟨replaceChar ',' '.' (removeChar '.' (trimChars s.data))⟩)
    ∧ (∀ s : String, (trimChars s.data).contains ',' = true →
      (trimChars s.data).contains '.' = false →
      normalizeStr s = ⟨replaceChar ',' '.' (trimChars s.data)⟩)
    ∧ toDecimal none = some ⟨0, 1⟩
    ∧ toDecimal (some "") = some ⟨0, 1⟩
    ∧ (∀ (s : String) (q : Dec), toDecimal (some s) = some q →
        toDecimal (some (normalizeStr s)) = some q)
    ∧ toDecimal (some "1.234,56") = some ⟨123456, 2⟩
    ∧ toDecimal (some "1234.56") = some ⟨123456, 2⟩ := by
  refine ⟨?_, ?_, rfl, by decide, ?_, by decide, by decide⟩
  · intro s h1 h2
    have m1 : ',' ∈ trimChars s.data := contains_eq_true_iff.mp h1
    have m2 : '.' ∈ trimChars s.data := contains_eq_true_iff.mp h2
    simp [normalizeStr, normalizeChars, m1, m2]
  · intro s h1 h2
    have m1 : ',' ∈ trimChars s.data := contains_eq_true_iff.mp h1
    have m2 : '.' ∉ trimChars s.data := fun hm => by
      rw [contains_eq_true_iff.mpr hm] at h2
      exact Bool.noConfusion h2
    simp [normalizeStr, normalizeChars, m1, m2]
  · intro s q h
    by_cases hs : s = ""
    · subst hs
      rw [show normalizeStr "" = "" from rfl]
      exact h
    · have h' : parseDecCore (trimChars (normalizeChars s.data)) = some q := by
        simpa [toDecimal, hs] using h
      by_cases hns : normalizeStr s = ""
      · exfalso
        have hdata : normalizeChars s.data = [] := by
          have h2 := congrArg String.data hns
          simpa [normalizeStr] using h2
        rw [hdata] at h'
        rw [show parseDecCore (trimChars ([] : List Char)) = none from rfl] at h'
        exact Option.noConfusion h'
      · have hstep : toDecimal (some (normalizeStr s))
            = parseDecCore (trimChars (normalizeChars (normalizeStr s).data)) := by
          simp [toDecimal, hns]
        rw [hstep]
        have hdata : (normalizeStr s).data = normalizeChars s.data := rfl
        rw [hdata, normalizeChars_normalizeChars]
        exact h'

theorem to_decimal_normalization_policy_witness :
    normalizeStr "1.234,56" = ⟨replaceChar ',' '.' (removeChar '.' (trimChars "1.234,56".data))⟩
    ∧ toDecimal (some (normalizeStr "1.234,56")) = some ⟨123456, 2⟩ :=
  ⟨to_decimal_normalization_policy.1 "1.234,56" (by decide) (by decide),
   to_decimal_normalization_policy.2.2.2.2.1 "1.234,56" ⟨123456, 2⟩ (by decide)⟩

/-! ## C6 -/

lemma processarItem_ncm_issue (lookup : String → Option NcmResult) (i : Nat) (item : Item)
    (h1 : truthyS item.ncm = true) (h2 : lookup (item.ncm.getD "") = none) :
    ncmNaoEncontradoMsg i item ∈ (processarItem lookup i item).1 := by
  unfold processarItem
  simp [h1, h2]

lemma mem_auditarItens (lookup : String → Option NcmResult) :
    ∀ (items : List Item) (start j : Nat) (acc : Dec) (hj : j < items.length) (x : String),
      x ∈ (processarItem lookup (start + j) (items.get ⟨j, hj⟩)).1 →
      x ∈ (auditarItens lookup start acc items).1 := by
  intro items
  induction items with
  | nil => intro start j acc hj x hx; exact absurd hj (Nat.not_lt_zero j)
  | cons item rest ih =>
    intro start j acc hj x hx
    show x ∈ (processarItem lookup start item).1 ++ _
    cases j with
    | zero =>
      apply List.mem_append_left
      simpa using hx
    | succ j =>
      apply List.mem_append_right
      have hj' : j < rest.length := by simpa using hj
      have hx' : x ∈ (processarItem lookup ((start + 1) + j) (rest.get ⟨j, hj'⟩)).1 := by
        have harith : start + (j + 1) = (start + 1) + j := by omega
        have hget : (item :: rest).get ⟨j + 1, hj⟩ = rest.get ⟨j, hj'⟩ := rfl
        rw [harith, hget] at hx
        exact hx
      exact ih (start + 1) j _ hj' x hx'

lemma reconciliar_mem (soma : Dec) (v : Option String) (issues iss : List String)
    (h : reconciliar soma v issues = some iss) (x : String) (hx : x ∈ issues) : x ∈ iss := by
  unfold reconciliar at h
  cases htd : toDecimal (some (v.getD "0")) with
  | none => rw [htd] at h; exact absurd h (by simp)
  | some total =>
    rw [htd] at h
    rw [Option.some.injEq] at h
    rw [← h]
    split
    · exact List.mem_append_left _ hx
    · exact hx

lemma mem_estruturado_issues (lookup : String → Option NcmResult) (d : Registro)
    (iss ws inf : List String) (x : String)
    (h : auditarEstruturado lookup d = some (iss, ws, inf))
    (hx : x ∈ (auditarItens lookup 1 ⟨0, 2⟩ d.itens).1) : x ∈ iss := by
  unfold auditarEstruturado at h
  rcases hAI : auditarItens lookup 1 ⟨0, 2⟩ d.itens with ⟨ii, iw, inf2, soma⟩
  rw [hAI] at h hx
  simp only [Option.map_eq_some'] at h
  obtain ⟨iss0, hrec, heq⟩ := h
  rw [Prod.mk.injEq] at heq
  obtain ⟨h1, _⟩ := heq
  rw [← h1]
  exact reconciliar_mem _ _ _ _ hrec x (List.mem_append_right _ (by simpa using hx))

/-- C6: a structured-path record containing an item whose NCM code is
present but unknown to the reference lookup is audited to status `error`,
and the error list records the not-found entry for that item. -/
theorem unknown_ncm_yields_error :
    ∀ (lookup : String → Option NcmResult) (d : Registro) (j : Nat)
      (hj : j < d.itens.length) (st : String) (e w i : List String),
      d.erro = none → d.formato ≠ some "ocr" → d.formato ≠ some "ocr_ia" →
      truthyS (d.itens.get ⟨j, hj⟩).ncm = true →
      lookup ((d.itens.get ⟨j, hj⟩).ncm.getD "") = none →
      auditar lookup d = .resultado st e w i →
      st = "error" ∧ ncmNaoEncontradoMsg (1 + j) (d.itens.get ⟨j, hj⟩) ∈ e := by
  intro lookup d j hj st e w i herr hf1 hf2 hncm hlk hres
  rw [auditar_estruturado_eq lookup d herr hf1 hf2] at hres
  unfold saidaEstruturada at hres
  cases ha : auditarEstruturado lookup d with
  | none => rw [ha] at hres; exact absurd hres (by simp)
  | some trip =>
    obtain ⟨iss, ws, inf⟩ := trip
    rw [ha] at hres
    rw [Saida.resultado.injEq] at hres
    obtain ⟨h1, h2, h3, _⟩ := hres
    have hmem : ncmNaoEncontradoMsg (1 + j) (d.itens.get ⟨j, hj⟩) ∈ iss := by
      apply mem_estruturado_issues lookup d iss ws inf _ ha
      exact mem_auditarItens lookup d.itens 1 j ⟨0, 2⟩ hj _
        (processarItem_ncm_issue lookup (1 + j) _ hncm hlk)
    constructor
    · rw [← h1]
      exact (statusOf_spec iss ws).1.mpr (List.ne_nil_of_mem hmem)
    · rw [← h2]
      exact hmem

/-- An item whose NCM code is unknown to the reference table. -/
def itemNcmRuim : Item := ⟨some "7", some "99999999", some "5102", some "10.00", none⟩

/-- A structured record containing only `itemNcmRuim`. -/
def recNcmRuim : Registro :=
  ⟨none, none, some "5", none, some "11222333000181", none, some "10.00", none, [itemNcmRuim]⟩

theorem unknown_ncm_yields_error_witness :
    ("error" : String) = "error"
    ∧ ncmNaoEncontradoMsg (1 + 0) itemNcmRuim
        ∈ ["Item 1 (7) - NCM '99999999' é inválido ou não foi encontrado na Tabela TIPI."] := by
  have h := unknown_ncm_yields_error lkNone recNcmRuim 0 (by decide) "error"
    ["Item 1 (7) - NCM '99999999' é inválido ou não foi encontrado na Tabela TIPI."] [] []
    rfl (by decide) (by decide) (by decide) (by decide) (by decide)
  exact h
